import Mathlib

/-
Verification of the couch CouchDB client library.

The embedding models the final version of the library: conflict.go
(ConflictFor, SolveWith, Conflicts, ConflictsCount, ensureConflictView,
createConflictView, filterOpenLeafDocs), couch.go (Doc, DynamicDoc,
Identifiable, Bulk, InsertBulk, ErrorType) and replication.go
(Task.IsReplication, Task.HasReplicationID, Replication.IsActive,
Sync.IsActive, SyncWith).

Go maps (map[string]interface x) are modelled as association lists over a
small JSON-like value type; Go interface values read through type
assertions are modelled by total functions returning the Go zero value on
mismatch, exactly as the `v, _ := x.(T)` idiom does.  Network calls are
modelled by store structures holding the response the store would give,
and functions return the list of requests they issued so that claims
about what was (or was not) submitted can be stated.
-/

namespace Couch

/-- A JSON-like dynamic value as stored in a Go interface. -/
inductive Val where
  | str (s : String)
  | bool (b : Bool)
  | num (n : Int)
  deriving DecidableEq, Repr

/-- DynamicDoc is Go's map[string]interface, modelled as an association list
with first-key-wins lookup and in-place update. -/
abbrev DynamicDoc := List (String × Val)

/-- Go map read m[k]: none models the nil interface for a missing key. -/
def dget : DynamicDoc → String → Option Val
  | [], _ => none
  | (k', v') :: tl, k => if k' = k then some v' else dget tl k

/-- Go map write m[k] = v: replaces the binding if present, else adds it. -/
def dset : DynamicDoc → String → Val → DynamicDoc
  | [], k, v => [(k, v)]
  | (k', v') :: tl, k, v => if k' = k then (k, v) :: tl else (k', v') :: dset tl k v

/-- Go string type assertion s, _ := v.(string): empty string unless the
interface holds a string. -/
def goStr : Option Val → String
  | some (Val.str s) => s
  | _ => ""

/-- The embedded Doc struct of couch.go (fields ID, Rev). -/
structure Doc where
  id : String
  rev : String
  deriving DecidableEq, Repr

/-- Doc.IDRev of couch.go. -/
def Doc.idRev (d : Doc) : String × String := (d.id, d.rev)

/-- Doc.SetIDRev of couch.go. -/
def Doc.setIdRev (d : Doc) (id rev : String) : Doc := { d with id := id, rev := rev }

/-- DynamicDoc.IDRev of couch.go: reads _id and _rev with a string type
assertion, yielding "" when absent or not a string. -/
def DynamicDoc.idRev (m : DynamicDoc) : String × String :=
  (goStr (dget m "_id"), goStr (dget m "_rev"))

/-- DynamicDoc.SetIDRev of couch.go: plain map writes of _id and _rev. -/
def DynamicDoc.setIdRev (m : DynamicDoc) (id rev : String) : DynamicDoc :=
  dset (dset m "_id" (Val.str id)) "_rev" (Val.str rev)

/-- A value satisfying the Identifiable interface: either a struct embedding
Doc or a DynamicDoc (the two implementations in couch.go). -/
inductive IdDoc where
  | ofDoc (d : Doc)
  | ofDyn (m : DynamicDoc)
  deriving DecidableEq, Repr

/-- Dynamic dispatch of IDRev over the two Identifiable implementations. -/
def IdDoc.idRev : IdDoc → String × String
  | IdDoc.ofDoc d => d.idRev
  | IdDoc.ofDyn m => DynamicDoc.idRev m

/-- Dynamic dispatch of SetIDRev over the two Identifiable implementations. -/
def IdDoc.setIdRev : IdDoc → String → String → IdDoc
  | IdDoc.ofDoc d, id, rev => IdDoc.ofDoc (d.setIdRev id rev)
  | IdDoc.ofDyn m, id, rev => IdDoc.ofDyn (DynamicDoc.setIdRev m id rev)

/-- Projection back to the DynamicDoc payload.  In SolveWith every bulk
entry after the first is an ofDyn, so the ofDoc arm is never reached there. -/
def IdDoc.projDyn : IdDoc → DynamicDoc
  | IdDoc.ofDyn m => m
  | IdDoc.ofDoc _ => []

/-- Errors of the library: either a decoded CouchDB error envelope
(couchError of couch.go, with its error kind and reason strings) or a plain
Go error created with errors.New. -/
inductive Err where
  | couch (kind reason : String)
  | generic (msg : String)
  deriving DecidableEq, Repr

/-- ErrorType of couch.go: the short error kind for store-originated errors,
"" for every other error. -/
def errorType : Err → String
  | Err.couch k _ => k
  | Err.generic _ => ""

/-- bulkResult of couch.go: one entry of the _bulk_docs response. -/
structure BulkResult where
  id : String
  rev : String
  ok : Bool
  error : String
  reason : String
  deriving DecidableEq, Repr

/-- Bulk of couch.go: the document container posted to _bulk_docs. -/
structure Bulk where
  docs : List IdDoc
  allOrNothing : Bool
  deriving DecidableEq, Repr

/-- The store's _bulk_docs endpoint: the response the store gives to a
posted bulk (the Do call inside InsertBulk). -/
structure BulkStore where
  bulkDocs : Bulk → Except Err (List BulkResult)

/-- The result-processing loop of InsertBulk: for each result entry, on ok
the doc at that index gets the new id and rev written back, otherwise the
doc is collected into the failed bulk (in order). -/
def applyResults : List IdDoc → List BulkResult → Nat → List IdDoc → List IdDoc × List IdDoc
  | docs, [], _, failed => (docs, failed.reverse)
  | docs, r :: rest, i, failed =>
    if r.ok then
      applyResults (docs.set i ((docs.getD i (IdDoc.ofDyn [])).setIdRev r.id r.rev)) rest (i + 1) failed
    else
      applyResults docs rest (i + 1) ((docs.getD i (IdDoc.ofDyn [])) :: failed)

/-- Outcome of InsertBulk: the requests sent to the store, the caller's bulk
after the in-place id/rev updates, the bulk of failed documents and the
returned error (none for nil). -/
structure InsertBulkOut where
  sent : List Bulk
  bulkAfter : Bulk
  failed : Bulk
  err : Option Err
  deriving DecidableEq, Repr

/-- Database.InsertBulk of couch.go: sets AllOrNothing on the bulk, posts it
to _bulk_docs, writes the returned ids and revs back into the docs, collects
rejected docs into a failed bulk and, when any doc failed, replaces the
error with the generic bulk-insert-incomplete error. -/
def insertBulk (store : BulkStore) (bulk : Bulk) (allOrNothing : Bool) : InsertBulkOut :=
  let sentBulk : Bulk := { bulk with allOrNothing := allOrNothing }
  match store.bulkDocs sentBulk with
  | Except.error e =>
    { sent := [sentBulk], bulkAfter := sentBulk,
      failed := { docs := [], allOrNothing := false }, err := some e }
  | Except.ok results =>
    let applied := applyResults sentBulk.docs results 0 []
    { sent := [sentBulk], bulkAfter := { sentBulk with docs := applied.1 },
      failed := { docs := applied.2, allOrNothing := false },
      err := if applied.2.length > 0 then some (Err.generic "bulk insert incomplete") else none }

/-- openRevision of conflict.go: one element of the open_revs=all answer
(the doc under the ok field). -/
structure OpenRevision where
  doc : DynamicDoc
  deriving DecidableEq, Repr

/-- The loop condition of filterOpenLeafDocs: a doc is kept when its
_deleted entry is absent or compares equal to the Go bool false. -/
def isOpenDoc (d : DynamicDoc) : Bool :=
  match dget d "_deleted" with
  | none => true
  | some del => decide (del = Val.bool false)

/-- filterOpenLeafDocs of conflict.go: keeps the docs that are not marked
deleted, in order. -/
def filterOpenLeafDocs : List OpenRevision → List DynamicDoc
  | [] => []
  | r :: rest =>
    match dget r.doc "_deleted" with
    | none => r.doc :: filterOpenLeafDocs rest
    | some del =>
      if del = Val.bool false then r.doc :: filterOpenLeafDocs rest
      else filterOpenLeafDocs rest

/-- Conflict of conflict.go (the db pointer is passed explicitly instead). -/
structure Conflict where
  docID : String
  revisions : List DynamicDoc
  deriving DecidableEq, Repr

/-- Conflict.RevisionsCount. -/
def Conflict.revisionsCount (c : Conflict) : Nat := c.revisions.length

/-- Conflict.isReal of conflict.go: revisions non-nil and more than one.
A Go slice with more than one element is never nil, so the nil test is
subsumed by the length test. -/
def Conflict.isReal (c : Conflict) : Bool := decide (1 < c.revisions.length)

/-- The store's open_revs=all endpoint consulted by openRevsFor. -/
structure RevStore where
  openRevsFor : String → Except Err (List OpenRevision)

/-- Database.ConflictFor of conflict.go: fetch all open revisions, filter
the deleted ones out; a single open leaf is no conflict, anything else is
wrapped in a Conflict. -/
def conflictFor (db : RevStore) (docID : String) : Except Err (Option Conflict) :=
  match db.openRevsFor docID with
  | Except.error e => Except.error e
  | Except.ok revs =>
    let openLeaves := filterOpenLeafDocs revs
    if openLeaves.length == 1 then Except.ok none
    else Except.ok (some { docID := docID, revisions := openLeaves })

/-- The loop body of SolveWith closing a branch: rev["_deleted"] = true. -/
def markDeleted (d : DynamicDoc) : DynamicDoc := dset d "_deleted" (Val.bool true)

/-- Outcome of SolveWith: requests sent to the store, the conflict handle
and the final document after the call, and the returned error. -/
structure SolveOut where
  sent : List Bulk
  conflictAfter : Conflict
  finalAfter : IdDoc
  err : Option Err
  deriving DecidableEq, Repr

/-- The bulk built by SolveWith before the write: the final doc, carrying
the id and rev of the first open revision, followed by every other open
revision marked deleted in place (rev["_deleted"] = true).  AllOrNothing is
still false here; InsertBulk sets it from its argument. -/
def solveLeaves (r0 : DynamicDoc) (others : List DynamicDoc) (finalDoc : IdDoc) : Bulk :=
  { docs := IdDoc.setIdRev finalDoc (DynamicDoc.idRev r0).1 (DynamicDoc.idRev r0).2
      :: others.map (fun r => IdDoc.ofDyn (markDeleted r)),
    allOrNothing := false }

/-- The state of the SolveWith caller after the InsertBulk call returned
out.  On success (nil error) the handle's revision list becomes nil; on
failure the handle keeps listing the first revision followed by the other
revisions, which — Go maps being reference types — are the very objects
sitting in the bulk at the positions after the first doc, already marked
deleted and updated in place by InsertBulk's result loop.  The final doc is
the bulk's first entry after those in-place updates. -/
def solveFinish (docID : String) (r0 : DynamicDoc) (finalDoc : IdDoc)
    (out : InsertBulkOut) : SolveOut :=
  { sent := out.sent,
    conflictAfter :=
      match out.err with
      | none => { docID := docID, revisions := [] }
      | some _ =>
        { docID := docID,
          revisions := r0 :: (out.bulkAfter.docs.drop 1).map IdDoc.projDyn },
    finalAfter :=
      out.bulkAfter.docs.getD 0
        (IdDoc.setIdRev finalDoc (DynamicDoc.idRev r0).1 (DynamicDoc.idRev r0).2),
    err := out.err }

/-- The real-conflict body of SolveWith: build the bulk and post it with
allOrNothing set, then settle the handle from the outcome. -/
def solveReal (store : BulkStore) (docID : String) (r0 : DynamicDoc)
    (others : List DynamicDoc) (finalDoc : IdDoc) : SolveOut :=
  solveFinish docID r0 finalDoc (insertBulk store (solveLeaves r0 others finalDoc) true)

/-- Conflict.SolveWith of conflict.go.  The isReal guard is the pattern
match: isReal holds exactly when the revision list has two or more
elements; otherwise the call is a no-op success. -/
def solveWith (store : BulkStore) (c : Conflict) (finalDoc : IdDoc) : SolveOut :=
  match c.revisions with
  | r0 :: r1 :: rest => solveReal store c.docID r0 (r1 :: rest) finalDoc
  | _ => { sent := [], conflictAfter := c, finalAfter := finalDoc, err := none }

/-- view of view.go: a map/reduce source pair. -/
structure View where
  map : String
  reduce : String
  deriving DecidableEq, Repr

/-- ViewResultRow of view.go. -/
structure ViewResultRow where
  id : String
  key : Option Val
  value : Option Val
  deriving DecidableEq, Repr

/-- ViewResultRow.ValueInt: float64 type assertion on the row value, 0 on
mismatch. -/
def ViewResultRow.valueInt (r : ViewResultRow) : Int :=
  match r.value with
  | some (Val.num n) => n
  | _ => 0

/-- ViewResult of view.go. -/
structure ViewResult where
  offset : Nat
  rows : List ViewResultRow
  deriving DecidableEq, Repr

/-- One observable store request made by the conflicts-view code path:
inserting a design document, or querying a view with a reduce flag. -/
inductive StoreEvent where
  | insertDesign (id : String) (views : List (String × View))
  | queryView (designID viewID : String) (reduce : Bool)
  deriving DecidableEq, Repr

/-- The store endpoints consulted by Conflicts and ConflictsCount: the HEAD
probe behind HasView, the response to the design-document insert, and the
view query response per reduce flag. -/
structure ViewStore where
  hasView : String → String → Bool
  insertResult : Except Err Unit
  queryResult : Bool → Except Err ViewResult

/-- ConflictsDesignID of conflict.go. -/
def conflictsDesignID : String := "conflicts"

/-- ConflictsViewID of conflict.go. -/
def conflictsViewID : String := "all"

/-- The map source of the conflicts view in createConflictView. -/
def conflictsMap : String :=
  "function(doc) \x7b if (doc._conflicts) \x7b emit(null, null); \x7d \x7d"

/-- Database.createConflictView of conflict.go: inserts the design document
_design/conflicts holding the view all with the conflicts map and the
built-in _count reducer. -/
def createConflictView (db : ViewStore) : List StoreEvent × Option Err :=
  let v : View := { map := conflictsMap, reduce := "_count" }
  let ev := StoreEvent.insertDesign ("_design/" ++ conflictsDesignID) [("all", v)]
  match db.insertResult with
  | Except.ok _ => ([ev], none)
  | Except.error e => ([ev], some e)

/-- Database.ensureConflictView of conflict.go (final version): nothing to
do if the view exists, an immediate error if it is missing and forceView is
off, otherwise create it. -/
def ensureConflictView (db : ViewStore) (forceView : Bool) : List StoreEvent × Option Err :=
  if db.hasView conflictsDesignID conflictsViewID then ([], none)
  else if !forceView then ([], some (Err.generic "missing conflicts view"))
  else createConflictView db

/-- Database.queryConflictView of conflict.go: ensure the view, then query
it with the given reduce option. -/
def queryConflictView (db : ViewStore) (forceView reduce : Bool) :
    List StoreEvent × Except Err ViewResult :=
  match ensureConflictView db forceView with
  | (ev, some e) => (ev, Except.error e)
  | (ev, none) =>
    (ev ++ [StoreEvent.queryView conflictsDesignID conflictsViewID reduce],
     db.queryResult reduce)

/-- Database.Conflicts of conflict.go: query without reduce and collect the
row ids. -/
def conflictsRun (db : ViewStore) (forceView : Bool) :
    List StoreEvent × Except Err (List String) :=
  match queryConflictView db forceView false with
  | (ev, Except.error e) => (ev, Except.error e)
  | (ev, Except.ok result) => (ev, Except.ok (result.rows.map ViewResultRow.id))

/-- Database.ConflictsCount of conflict.go: query with reduce and read the
first row's integer value, 0 when there are no rows. -/
def conflictsCountRun (db : ViewStore) (forceView : Bool) :
    List StoreEvent × Except Err Int :=
  match queryConflictView db forceView true with
  | (ev, Except.error e) => (ev, Except.error e)
  | (ev, Except.ok result) =>
    match result.rows with
    | row :: _ => (ev, Except.ok row.valueInt)
    | [] => (ev, Except.ok 0)

/-- Task of couch.go: a loosely typed active-task record. -/
abbrev Task := List (String × Val)

/-- Go strings.HasPrefix(s, p). -/
def hasPre (s p : String) : Bool := p.data.isPrefixOf s.data

/-- Task.IsReplication of replication.go, as written: tests the value under
the key "replication" against the empty string.  A missing key yields a nil
interface, and in Go nil compared with the empty string is not equal, so
the test is true for any task without a "replication" entry. -/
def Task.isReplication (t : Task) : Bool := decide (dget t "replication" ≠ some (Val.str ""))

/-- Task.HasReplicationID of replication.go: string type assertion on the
replication_id entry, then a Go HasPrefix test against the given id. -/
def Task.hasReplicationID (t : Task) (id : String) : Bool :=
  hasPre (goStr (dget t "replication_id")) id

/-- The _active_tasks endpoint of a replication's source server. -/
structure TaskServer where
  activeTasks : Except Err (List Task)
  deriving Repr

/-- Replication of replication.go, reduced to what IsActive reads: the
source server's task endpoint and the session id. -/
structure Replication where
  server : TaskServer
  sessionID : String
  deriving Repr

/-- Replication.IsActive of replication.go: true when some active task on
the source is a replication task carrying this session id as an id
prefix. -/
def replIsActive (repl : Replication) : Except Err Bool :=
  match repl.server.activeTasks with
  | Except.error e => Except.error e
  | Except.ok tasks =>
    Except.ok (tasks.any (fun t => Task.isReplication t && Task.hasReplicationID t repl.sessionID))

/-- Sync of replication.go. -/
structure Sync where
  replA2B : Replication
  replB2A : Replication
  deriving Repr

/-- Sync.IsActive of replication.go, as written: both polls go to replA2B
(the second poll, meant for replB2A, again reads sync.replA2B). -/
def syncIsActive (s : Sync) : Except Err Bool :=
  match replIsActive s.replA2B with
  | Except.error e => Except.error e
  | Except.ok a2bIsActive =>
    match replIsActive s.replA2B with
    | Except.error e => Except.error e
    | Except.ok b2aIsActive =>
      if a2bIsActive != b2aIsActive then
        Except.error (Err.generic "corrupt sync, only one replication active instead of two")
      else Except.ok (a2bIsActive && b2aIsActive)

/-- The store responses seen by one SyncWith call: the outcome of each of
the two ReplicateTo requests and of the rollback Cancel request. -/
structure SyncEnv where
  startA2B : Except Err Replication
  startB2A : Except Err Replication
  cancelResult : Option Err
  deriving Repr

/-- Outcome of SyncWith: the replications whose cancellation was requested,
in order, and the returned sync or error. -/
structure SyncOut where
  cancelled : List Replication
  result : Except Err Sync
  deriving Repr

/-- Database.SyncWith of replication.go: start A to B, then B to A; when the
second start fails, request cancellation of the first replication, discard
that cancellation's own outcome, and return the second start's error. -/
def syncWith (env : SyncEnv) : SyncOut :=
  match env.startA2B with
  | Except.error e => { cancelled := [], result := Except.error e }
  | Except.ok replA2B =>
    match env.startB2A with
    | Except.error e => { cancelled := [replA2B], result := Except.error e }
    | Except.ok replB2A => { cancelled := [], result := Except.ok { replA2B := replA2B, replB2A := replB2A } }

/-
Concrete fixtures used to instantiate the theorems below.
-/

/-- Open revisions of a document with two open leaves and one closed one. -/
def wRevs : List OpenRevision :=
  [{ doc := [("_id", Val.str "k"), ("_rev", Val.str "1-a")] },
   { doc := [("_id", Val.str "k"), ("_rev", Val.str "1-b"), ("_deleted", Val.bool true)] },
   { doc := [("_id", Val.str "k"), ("_rev", Val.str "1-c")] }]

/-- A store answering every open_revs request with wRevs. -/
def wRevStore : RevStore := { openRevsFor := fun _ => Except.ok wRevs }

/-- A two-leaf conflict handle for document k. -/
def wConflict : Conflict :=
  { docID := "k",
    revisions := [[("_id", Val.str "k"), ("_rev", Val.str "1-a")],
                  [("_id", Val.str "k"), ("_rev", Val.str "1-b")]] }

/-- A fresh final document for resolving wConflict. -/
def wFinal : IdDoc := IdDoc.ofDoc { id := "", rev := "" }

/-- A bulk store whose _bulk_docs endpoint fails with a plain error. -/
def wStoreErr : BulkStore := { bulkDocs := fun _ => Except.error (Err.generic "boom") }

/-- A bulk store reporting a per-document optimistic-concurrency rejection:
the response arrives with HTTP success, each stale document flagged not ok
with the store's conflict kind, exactly how _bulk_docs reports rejected
revisions. -/
def wStorePartial : BulkStore :=
  { bulkDocs := fun _ =>
      Except.ok
        [{ id := "k", rev := "", ok := false, error := "conflict", reason := "" },
         { id := "k", rev := "", ok := false, error := "conflict", reason := "" }] }

/-- A bulk store rejecting every bulk with a store-level conflict error
envelope. -/
def wStoreConflictErr : BulkStore :=
  { bulkDocs := fun _ => Except.error (Err.couch "conflict" "Document update conflict.") }

/-- A bulk store accepting both documents of a two-document bulk. -/
def wStoreOk : BulkStore :=
  { bulkDocs := fun _ =>
      Except.ok
        [{ id := "k", rev := "2-s", ok := true, error := "", reason := "" },
         { id := "k", rev := "2-d", ok := true, error := "", reason := "" }] }

/-- A database without the conflicts view whose design insert and view query
both succeed. -/
def wViewDB : ViewStore :=
  { hasView := fun _ _ => false,
    insertResult := Except.ok (),
    queryResult := fun _ => Except.ok { offset := 0, rows := [] } }

/-- Source server of the A-to-B leg: lists a replication task whose id
extends session sa. -/
def wServerA : TaskServer :=
  { activeTasks :=
      Except.ok [[("type", Val.str "replication"),
                  ("replication_id", Val.str "sa+continuous")]] }

/-- Source server of the B-to-A leg: no active tasks (that leg was cancelled
out of band). -/
def wServerB : TaskServer := { activeTasks := Except.ok [] }

/-- A sync whose first leg is active and whose second leg is not. -/
def wSync : Sync :=
  { replA2B := { server := wServerA, sessionID := "sa" },
    replB2A := { server := wServerB, sessionID := "sb" } }

/-- A server whose only active task is an indexer task that nevertheless
carries a replication_id entry. -/
def wServerIndexer : TaskServer :=
  { activeTasks :=
      Except.ok [[("type", Val.str "indexer"),
                  ("replication_id", Val.str "abc+create_target")]] }

/-- A replication handle with session abc over wServerIndexer. -/
def wReplIndexer : Replication := { server := wServerIndexer, sessionID := "abc" }

/-- A started A-to-B replication used in the SyncWith fixtures. -/
def wReplA2B : Replication := { server := wServerA, sessionID := "sa" }

/-- SyncWith environment where the first start succeeds, the second fails
and the rollback cancellation itself also fails. -/
def wSyncEnv : SyncEnv :=
  { startA2B := Except.ok wReplA2B,
    startB2A := Except.error (Err.couch "db_not_found" "could not open b"),
    cancelResult := some (Err.generic "cancel failed") }

end Couch

namespace Couch

/-
Supporting lemmas about the map model and the bulk-result loop.
-/

theorem dget_dset_self (d : DynamicDoc) (k : String) (v : Val) :
    dget (dset d k v) k = some v := by
  induction d with
  | nil => simp [dset, dget]
  | cons hd tl ih =>
    obtain ⟨k', v'⟩ := hd
    by_cases hk : k' = k
    · subst hk; simp [dset, dget]
    · simp [dset, dget, hk, ih]

theorem dget_dset_ne (d : DynamicDoc) (k k₂ : String) (v : Val) (h : k ≠ k₂) :
    dget (dset d k v) k₂ = dget d k₂ := by
  induction d with
  | nil => simp [dset, dget, h]
  | cons hd tl ih =>
    obtain ⟨k', v'⟩ := hd
    by_cases hk : k' = k
    · subst hk; simp [dset, dget, h]
    · simp [dset, dget, hk, ih]

theorem markDeleted_idRev (d : DynamicDoc) :
    DynamicDoc.idRev (markDeleted d) = DynamicDoc.idRev d := by
  unfold DynamicDoc.idRev markDeleted
  rw [dget_dset_ne d "_deleted" "_id" (Val.bool true) (by decide),
      dget_dset_ne d "_deleted" "_rev" (Val.bool true) (by decide)]

theorem markDeleted_deleted (d : DynamicDoc) :
    dget (markDeleted d) "_deleted" = some (Val.bool true) :=
  dget_dset_self d "_deleted" (Val.bool true)

theorem dynSetIdRev_idRev (m : DynamicDoc) (id rev : String) :
    DynamicDoc.idRev (DynamicDoc.setIdRev m id rev) = (id, rev) := by
  unfold DynamicDoc.idRev DynamicDoc.setIdRev
  rw [dget_dset_ne _ "_rev" "_id" _ (by decide), dget_dset_self, dget_dset_self]
  rfl

theorem idDoc_setIdRev_idRev (d : IdDoc) (id rev : String) :
    IdDoc.idRev (IdDoc.setIdRev d id rev) = (id, rev) := by
  cases d with
  | ofDoc d => rfl
  | ofDyn m =>
    show DynamicDoc.idRev (DynamicDoc.setIdRev m id rev) = (id, rev)
    exact dynSetIdRev_idRev m id rev

theorem goStr_eq_empty (o : Option Val) (h : ∀ s, o ≠ some (Val.str s)) : goStr o = "" := by
  match o with
  | none => rfl
  | some (Val.str s) => exact absurd rfl (h s)
  | some (Val.bool b) => rfl
  | some (Val.num n) => rfl

theorem applyResults_fst_length (results : List BulkResult) :
    ∀ (docs : List IdDoc) (i : Nat) (failed : List IdDoc),
      ((applyResults docs results i failed).1).length = docs.length := by
  induction results with
  | nil => intro docs i failed; rfl
  | cons r rest ih =>
    intro docs i failed
    cases hok : r.ok <;> simp [applyResults, hok, ih, List.length_set]

theorem applyResults_snd_length (results : List BulkResult) :
    ∀ (docs : List IdDoc) (i : Nat) (failed : List IdDoc),
      ((applyResults docs results i failed).2).length
        = failed.length + results.countP (fun r => !r.ok) := by
  induction results with
  | nil => intro docs i failed; simp [applyResults]
  | cons r rest ih =>
    intro docs i failed
    cases hok : r.ok <;>
      simp [applyResults, hok, ih, List.countP_cons] <;> omega

theorem insertBulk_sent (store : BulkStore) (bulk : Bulk) (aon : Bool) :
    (insertBulk store bulk aon).sent = [{ bulk with allOrNothing := aon }] := by
  unfold insertBulk
  cases hr : store.bulkDocs { bulk with allOrNothing := aon } <;> simp [hr]

theorem insertBulk_bulkAfter_length (store : BulkStore) (bulk : Bulk) (aon : Bool) :
    ((insertBulk store bulk aon).bulkAfter).docs.length = bulk.docs.length := by
  unfold insertBulk
  cases hr : store.bulkDocs { bulk with allOrNothing := aon } <;>
    simp [hr, applyResults_fst_length]

theorem insertBulk_err_of_storeError (store : BulkStore) (bulk : Bulk) (aon : Bool) (e : Err)
    (hr : store.bulkDocs { bulk with allOrNothing := aon } = Except.error e) :
    (insertBulk store bulk aon).err = some e := by
  unfold insertBulk
  simp [hr]

theorem insertBulk_err_of_partial (store : BulkStore) (bulk : Bulk) (aon : Bool)
    (results : List BulkResult)
    (hr : store.bulkDocs { bulk with allOrNothing := aon } = Except.ok results)
    (hex : ∃ r ∈ results, r.ok = false) :
    (insertBulk store bulk aon).err = some (Err.generic "bulk insert incomplete") := by
  have hpos : 0 < results.countP (fun r => !r.ok) := by
    rcases hex with ⟨r, hr_mem, hok⟩
    exact List.countP_pos_iff.mpr ⟨r, hr_mem, by simp [hok]⟩
  have hlen : (applyResults ({ bulk with allOrNothing := aon }).docs results 0 []).2.length
      = results.countP (fun r => !r.ok) := by
    simpa using applyResults_snd_length results ({ bulk with allOrNothing := aon }).docs 0 []
  simp [insertBulk, hr, hlen, hpos]

end Couch

namespace Couch

/-
Lemmas about the SolveWith pipeline.
-/

theorem solveFinish_err (docID : String) (r0 : DynamicDoc) (fd : IdDoc) (out : InsertBulkOut) :
    (solveFinish docID r0 fd out).err = out.err := rfl

theorem solveFinish_sent (docID : String) (r0 : DynamicDoc) (fd : IdDoc) (out : InsertBulkOut) :
    (solveFinish docID r0 fd out).sent = out.sent := rfl

theorem solveFinish_ok_clears (docID : String) (r0 : DynamicDoc) (fd : IdDoc)
    (out : InsertBulkOut) (h : out.err = none) :
    (solveFinish docID r0 fd out).conflictAfter = { docID := docID, revisions := [] } := by
  unfold solveFinish
  rw [h]

theorem solveFinish_fail_keeps (docID : String) (r0 : DynamicDoc) (fd : IdDoc)
    (out : InsertBulkOut) (e : Err) (h : out.err = some e) :
    (solveFinish docID r0 fd out).conflictAfter
      = { docID := docID, revisions := r0 :: (out.bulkAfter.docs.drop 1).map IdDoc.projDyn } := by
  unfold solveFinish
  rw [h]

theorem solveWith_real (store : BulkStore) (c : Conflict) (fd : IdDoc)
    (r0 r1 : DynamicDoc) (rest : List DynamicDoc) (h : c.revisions = r0 :: r1 :: rest) :
    solveWith store c fd = solveReal store c.docID r0 (r1 :: rest) fd := by
  obtain ⟨cid, crevs⟩ := c
  have h' : crevs = r0 :: r1 :: rest := h
  subst h'
  rfl

theorem solveLeaves_docs_length (r0 : DynamicDoc) (others : List DynamicDoc) (fd : IdDoc) :
    (solveLeaves r0 others fd).docs.length = others.length + 1 := by
  simp [solveLeaves]

end Couch

namespace Couch

/-
Claim theorems.
-/

/-- C10: the Identifiable contract round-trips and is total on both document
representations: SetIDRev then IDRev returns exactly the pair that was set,
on Doc as well as on DynamicDoc; a Doc with empty fields yields ("", ""),
and a DynamicDoc whose _id or _rev entries are absent or not strings yields
("", "") instead of failing. -/
theorem identifiable_roundtrip :
    (∀ (d : Doc) (id rev : String), Doc.idRev (Doc.setIdRev d id rev) = (id, rev))
    ∧ (∀ (m : DynamicDoc) (id rev : String),
        DynamicDoc.idRev (DynamicDoc.setIdRev m id rev) = (id, rev))
    ∧ (∀ d : Doc, d.id = "" → d.rev = "" → Doc.idRev d = ("", ""))
    ∧ (∀ m : DynamicDoc,
        (∀ s, dget m "_id" ≠ some (Val.str s)) →
        (∀ s, dget m "_rev" ≠ some (Val.str s)) →
        DynamicDoc.idRev m = ("", "")) := by
  refine ⟨fun d id rev => rfl, dynSetIdRev_idRev, fun d h1 h2 => ?_, fun m h1 h2 => ?_⟩
  · simp [Doc.idRev, h1, h2]
  · unfold DynamicDoc.idRev
    rw [goStr_eq_empty _ h1, goStr_eq_empty _ h2]

/-- Witness for C10 at concrete documents: a Doc and a DynamicDoc round-trip
the pair (foo, bar); an empty Doc and a DynamicDoc whose _id is a number and
whose _rev is absent report ("", ""). -/
theorem identifiable_roundtrip_witness :
    Doc.idRev (Doc.setIdRev { id := "", rev := "" } "foo" "bar") = ("foo", "bar")
    ∧ DynamicDoc.idRev (DynamicDoc.setIdRev [("Name", Val.str "Peter")] "foo" "bar")
        = ("foo", "bar")
    ∧ Doc.idRev { id := "", rev := "" } = ("", "")
    ∧ DynamicDoc.idRev [("_id", Val.num 3), ("Name", Val.str "Peter")] = ("", "") := by
  refine ⟨identifiable_roundtrip.1 _ "foo" "bar", identifiable_roundtrip.2.1 _ "foo" "bar",
    identifiable_roundtrip.2.2.1 _ rfl rfl, identifiable_roundtrip.2.2.2 _ ?_ ?_⟩
  · intro s h
    simp [dget] at h
  · intro s h
    simp [dget] at h

theorem isOpenDoc_char (d : DynamicDoc) (h : isOpenDoc d = true) :
    dget d "_deleted" = none ∨ dget d "_deleted" = some (Val.bool false) := by
  unfold isOpenDoc at h
  cases hdel : dget d "_deleted" with
  | none => exact Or.inl rfl
  | some del =>
    rw [hdel] at h
    right
    have hd : decide (del = Val.bool false) = true := h
    rw [of_decide_eq_true hd]

theorem filterOpenLeafDocs_eq_filter (revs : List OpenRevision) :
    filterOpenLeafDocs revs = (revs.map OpenRevision.doc).filter isOpenDoc := by
  induction revs with
  | nil => rfl
  | cons r rest ih =>
    unfold filterOpenLeafDocs
    cases hdel : dget r.doc "_deleted" with
    | none => simp [List.filter, isOpenDoc, hdel, ih]
    | some del =>
      by_cases hdf : del = Val.bool false <;>
        simp [List.filter, isOpenDoc, hdel, hdf, ih]

/-- C1: ConflictFor first filters the store-returned open revisions to those
not flagged deleted; if exactly one revision remains it returns no conflict
and no error, and if zero or at least two remain it returns a Conflict
wrapping exactly the filtered set, so its revision count equals the filtered
count exactly. -/
theorem conflictFor_spec (db : RevStore) (docID : String) (revs : List OpenRevision)
    (h : db.openRevsFor docID = Except.ok revs) :
    filterOpenLeafDocs revs = (revs.map OpenRevision.doc).filter isOpenDoc
    ∧ (∀ d ∈ filterOpenLeafDocs revs,
        dget d "_deleted" = none ∨ dget d "_deleted" = some (Val.bool false))
    ∧ ((filterOpenLeafDocs revs).length = 1 → conflictFor db docID = Except.ok none)
    ∧ ((filterOpenLeafDocs revs).length ≠ 1 →
        conflictFor db docID
          = Except.ok (some { docID := docID, revisions := filterOpenLeafDocs revs })
        ∧ Conflict.revisionsCount { docID := docID, revisions := filterOpenLeafDocs revs }
            = (filterOpenLeafDocs revs).length) := by
  refine ⟨filterOpenLeafDocs_eq_filter revs, ?_, ?_, ?_⟩
  · intro d hd
    rw [filterOpenLeafDocs_eq_filter] at hd
    exact isOpenDoc_char d (List.of_mem_filter hd)
  · intro hlen
    unfold conflictFor
    rw [h]
    simp [hlen]
  · intro hlen
    refine ⟨?_, rfl⟩
    unfold conflictFor
    rw [h]
    simp [hlen]

/-- Witness for C1: on a store answering with two open and one deleted
revision, ConflictFor returns a conflict wrapping exactly the two open
docs. -/
theorem conflictFor_spec_witness :
    conflictFor wRevStore "k"
      = Except.ok (some
          { docID := "k",
            revisions := [[("_id", Val.str "k"), ("_rev", Val.str "1-a")],
                          [("_id", Val.str "k"), ("_rev", Val.str "1-c")]] }) := by
  have h := ((conflictFor_spec wRevStore "k" wRevs rfl).2.2.2 (by decide)).1
  rw [h]
  rfl

end Couch

namespace Couch

/-- C2: for every conflict holding two or more open-leaf revisions and every
final doc, SolveWith assigns the final doc the id and revision token of the
first listed revision, marks every other listed revision deleted while
leaving its id and revision token unchanged, and submits the final doc plus
those now-deleted revisions to the store as exactly one all-or-nothing
multi-document bulk write. -/
theorem solveWith_submits_spec (store : BulkStore) (c : Conflict) (fd : IdDoc)
    (r0 r1 : DynamicDoc) (rest : List DynamicDoc) (h : c.revisions = r0 :: r1 :: rest) :
    (solveWith store c fd).sent
      = [{ docs := IdDoc.setIdRev fd (DynamicDoc.idRev r0).1 (DynamicDoc.idRev r0).2
              :: (r1 :: rest).map (fun r => IdDoc.ofDyn (markDeleted r)),
           allOrNothing := true }]
    ∧ IdDoc.idRev (IdDoc.setIdRev fd (DynamicDoc.idRev r0).1 (DynamicDoc.idRev r0).2)
        = DynamicDoc.idRev r0
    ∧ ∀ r ∈ r1 :: rest,
        DynamicDoc.idRev (markDeleted r) = DynamicDoc.idRev r
        ∧ dget (markDeleted r) "_deleted" = some (Val.bool true) := by
  refine ⟨?_, ?_, fun r _ => ⟨markDeleted_idRev r, markDeleted_deleted r⟩⟩
  · rw [solveWith_real store c fd r0 r1 rest h]
    simp only [solveReal]
    rw [solveFinish_sent, insertBulk_sent]
    rfl
  · rw [idDoc_setIdRev_idRev]

/-- Witness for C2: resolving the two-revision wConflict submits one
all-or-nothing bulk holding the final doc (now carrying the first leaf's
identity) and the second leaf marked deleted. -/
theorem solveWith_submits_spec_witness :
    (solveWith wStoreOk wConflict wFinal).sent
      = [{ docs := [IdDoc.ofDoc { id := "k", rev := "1-a" },
                    IdDoc.ofDyn [("_id", Val.str "k"), ("_rev", Val.str "1-b"),
                                 ("_deleted", Val.bool true)]],
           allOrNothing := true }] := by
  have h := (solveWith_submits_spec wStoreOk wConflict wFinal
      [("_id", Val.str "k"), ("_rev", Val.str "1-a")]
      [("_id", Val.str "k"), ("_rev", Val.str "1-b")] [] rfl).1
  rw [h]
  rfl

/-- C3: SolveWith is idempotent: on a conflict that is not real it succeeds
without issuing any store write; after any successful SolveWith on a real
conflict the revision list is cleared, and a second SolveWith on the handle
left by any successful call again succeeds and performs no store write. -/
theorem solveWith_idempotent (store store₂ : BulkStore) (c : Conflict) (fd fd₂ : IdDoc) :
    (c.isReal = false →
        solveWith store c fd
          = { sent := [], conflictAfter := c, finalAfter := fd, err := none })
    ∧ ((solveWith store c fd).err = none →
        (c.isReal = true → (solveWith store c fd).conflictAfter.revisions = [])
        ∧ solveWith store₂ (solveWith store c fd).conflictAfter fd₂
            = { sent := [], conflictAfter := (solveWith store c fd).conflictAfter,
                finalAfter := fd₂, err := none }) := by
  obtain ⟨cid, crevs⟩ := c
  rcases crevs with _ | ⟨r0, _ | ⟨r1, rest⟩⟩
  · refine ⟨fun _ => rfl, fun _ => ⟨fun hreal => ?_, rfl⟩⟩
    simp [Conflict.isReal] at hreal
  · refine ⟨fun _ => rfl, fun _ => ⟨fun hreal => ?_, rfl⟩⟩
    simp [Conflict.isReal] at hreal
  · constructor
    · intro hreal
      simp [Conflict.isReal] at hreal
    · intro herr
      have hsw : solveWith store ⟨cid, r0 :: r1 :: rest⟩ fd
          = solveReal store cid r0 (r1 :: rest) fd := rfl
      rw [hsw] at herr ⊢
      have hclear : (solveReal store cid r0 (r1 :: rest) fd).conflictAfter
          = { docID := cid, revisions := [] } :=
        solveFinish_ok_clears cid r0 fd _ herr
      rw [hclear]
      exact ⟨fun _ => rfl, rfl⟩

/-- Witness for C3: resolving wConflict against an accepting store succeeds
and clears the handle, and a second resolution on the left-over handle is a
no-op success that sends nothing to the store. -/
theorem solveWith_idempotent_witness :
    (solveWith wStoreOk wConflict wFinal).conflictAfter.revisions = []
    ∧ solveWith wStoreOk (solveWith wStoreOk wConflict wFinal).conflictAfter wFinal
        = { sent := [],
            conflictAfter := (solveWith wStoreOk wConflict wFinal).conflictAfter,
            finalAfter := wFinal, err := none } := by
  have h := (solveWith_idempotent wStoreOk wStoreOk wConflict wFinal wFinal).2 rfl
  exact ⟨h.1 rfl, h.2⟩

/-- C4 counterexample: with a store whose bulk write fails, SolveWith does
return the error and does keep the revision list — but the second listed
revision is not in its pre-call state: it now carries the deleted flag that
SolveWith wrote into it (Go maps are shared by reference) before the write
was attempted. -/
theorem solveWith_failure_mutates_cex :
    (solveWith wStoreErr wConflict wFinal).err = some (Err.generic "boom")
    ∧ dget (((solveWith wStoreErr wConflict wFinal).conflictAfter.revisions).getD 1 [])
        "_deleted" = some (Val.bool true)
    ∧ dget ((wConflict.revisions).getD 1 []) "_deleted" = none :=
  ⟨rfl, rfl, rfl⟩

/-- C4 (amended): for every real conflict, when the bulk write fails the
error is returned — a store-level failure verbatim, and a partial
multi-write result still surfaces as an error — and the revision list is
not cleared: the handle still lists the same number of revisions headed by
the same first revision and the conflict stays real, so the caller may
retry.  The non-first revisions, however, have been marked deleted in place
by the attempt, so they are not in the same state as before the call. -/
theorem solveWith_failure_spec (store : BulkStore) (c : Conflict) (fd : IdDoc)
    (r0 r1 : DynamicDoc) (rest : List DynamicDoc) (h : c.revisions = r0 :: r1 :: rest) :
    ((solveWith store c fd).err.isSome →
        (solveWith store c fd).conflictAfter.revisions.head? = some r0
        ∧ (solveWith store c fd).conflictAfter.revisions.length = c.revisions.length
        ∧ (solveWith store c fd).conflictAfter.isReal = true)
    ∧ (∀ e, (∀ b, store.bulkDocs b = Except.error e) → (solveWith store c fd).err = some e)
    ∧ (∀ results, (∀ b, store.bulkDocs b = Except.ok results) →
        (∃ r ∈ results, r.ok = false) →
        (solveWith store c fd).err = some (Err.generic "bulk insert incomplete")) := by
  rw [solveWith_real store c fd r0 r1 rest h, h]
  simp only [solveReal]
  refine ⟨?_, ?_, ?_⟩
  · intro hsome
    rcases herr : (insertBulk store (solveLeaves r0 (r1 :: rest) fd) true).err with _ | e
    · rw [solveFinish_err, herr] at hsome
      simp at hsome
    · rw [solveFinish_fail_keeps c.docID r0 fd _ e herr]
      refine ⟨rfl, ?_, ?_⟩
      · simp [insertBulk_bulkAfter_length, solveLeaves_docs_length]
      · simp [Conflict.isReal, insertBulk_bulkAfter_length, solveLeaves_docs_length]
  · intro e hstore
    rw [solveFinish_err]
    exact insertBulk_err_of_storeError store _ true e (hstore _)
  · intro results hstore hex
    rw [solveFinish_err]
    exact insertBulk_err_of_partial store _ true results (hstore _) hex

/-- Witness for C4 at a concrete failing store: the error is surfaced, the
handle still lists both revisions and stays real. -/
theorem solveWith_failure_spec_witness :
    (solveWith wStoreErr wConflict wFinal).err = some (Err.generic "boom")
    ∧ (solveWith wStoreErr wConflict wFinal).conflictAfter.revisions.length
        = wConflict.revisions.length
    ∧ (solveWith wStoreErr wConflict wFinal).conflictAfter.isReal = true := by
  have h := solveWith_failure_spec wStoreErr wConflict wFinal
      [("_id", Val.str "k"), ("_rev", Val.str "1-a")]
      [("_id", Val.str "k"), ("_rev", Val.str "1-b")] [] rfl
  have herr := h.2.1 (Err.generic "boom") (fun b => rfl)
  have hk := h.1 (by rw [herr]; rfl)
  exact ⟨herr, hk.2.1, hk.2.2⟩

/-- C5 counterexample: when the store reports the optimistic-concurrency
rejection of the stale revisions per document inside the bulk results — the
shape _bulk_docs uses for rejected revisions — SolveWith returns the
generic bulk-insert-incomplete error, whose ErrorType is the empty string
exactly like every other non-store error: nothing distinguishes it as a
lost update. -/
theorem solveWith_lostUpdate_generic_cex :
    (solveWith wStorePartial wConflict wFinal).err
      = some (Err.generic "bulk insert incomplete")
    ∧ errorType (Err.generic "bulk insert incomplete") = "" :=
  ⟨rfl, rfl⟩

/-- C5 (amended): only when the store rejects the bulk write with a
store-level error envelope does SolveWith propagate a distinguishable
condition: the typed store error passes through unchanged and ErrorType
exposes its kind (e.g. conflict), which no generic error carries; a
rejection reported per document in the bulk results surfaces as the generic
bulk-insert-incomplete error instead (see the counterexample). -/
theorem solveWith_envelope_spec (store : BulkStore) (c : Conflict) (fd : IdDoc)
    (r0 r1 : DynamicDoc) (rest : List DynamicDoc) (kind reason : String)
    (h : c.revisions = r0 :: r1 :: rest)
    (hstore : ∀ b, store.bulkDocs b = Except.error (Err.couch kind reason)) :
    (solveWith store c fd).err = some (Err.couch kind reason)
    ∧ errorType (Err.couch kind reason) = kind
    ∧ (∀ msg, errorType (Err.generic msg) = "") := by
  refine ⟨?_, rfl, fun msg => rfl⟩
  rw [solveWith_real store c fd r0 r1 rest h]
  simp only [solveReal]
  rw [solveFinish_err]
  exact insertBulk_err_of_storeError store _ true _ (hstore _)

/-- Witness for C5 at a concrete rejecting store: the conflict-kind envelope
error is propagated verbatim and its ErrorType is conflict. -/
theorem solveWith_envelope_spec_witness :
    (solveWith wStoreConflictErr wConflict wFinal).err
      = some (Err.couch "conflict" "Document update conflict.")
    ∧ errorType (Err.couch "conflict" "Document update conflict.") = "conflict" := by
  have h := solveWith_envelope_spec wStoreConflictErr wConflict wFinal
      [("_id", Val.str "k"), ("_rev", Val.str "1-a")]
      [("_id", Val.str "k"), ("_rev", Val.str "1-b")] [] "conflict"
      "Document update conflict." rfl (fun b => rfl)
  exact ⟨h.1, h.2.1⟩

end Couch

namespace Couch

/-- C6: on a database where the conflicts view (design conflicts, view all)
is absent, Conflicts and ConflictsCount called with forceView false fail
immediately with an error and issue no store request at all — in particular
no query; called with forceView true they first insert the conflicts design
document, whose view maps each document carrying a conflicts marker to one
emitted entry and reduces with the built-in _count reducer, and only then
query the view. -/
theorem conflictView_missing_spec (db : ViewStore)
    (h : db.hasView conflictsDesignID conflictsViewID = false) :
    (conflictsRun db false
        = ([], Except.error (Err.generic "missing conflicts view"))
      ∧ conflictsCountRun db false
        = ([], Except.error (Err.generic "missing conflicts view")))
    ∧ (db.insertResult = Except.ok () →
        (conflictsRun db true).1
          = [StoreEvent.insertDesign ("_design/" ++ conflictsDesignID)
               [("all", { map := conflictsMap, reduce := "_count" })],
             StoreEvent.queryView conflictsDesignID conflictsViewID false]
        ∧ (conflictsCountRun db true).1
          = [StoreEvent.insertDesign ("_design/" ++ conflictsDesignID)
               [("all", { map := conflictsMap, reduce := "_count" })],
             StoreEvent.queryView conflictsDesignID conflictsViewID true]) := by
  constructor
  · constructor
    · simp [conflictsRun, queryConflictView, ensureConflictView, h]
    · simp [conflictsCountRun, queryConflictView, ensureConflictView, h]
  · intro hins
    constructor
    · rcases hq : db.queryResult false with e | r <;>
        simp [conflictsRun, queryConflictView, ensureConflictView, createConflictView,
          h, hins, hq]
    · rcases hq : db.queryResult true with e | r
      · simp [conflictsCountRun, queryConflictView, ensureConflictView, createConflictView,
          h, hins, hq]
      · rcases r with ⟨off, _ | ⟨row, rows⟩⟩ <;>
          simp [conflictsCountRun, queryConflictView, ensureConflictView, createConflictView,
            h, hins, hq]

/-- Witness for C6 on a concrete database without the view: forceView false
fails with no request, forceView true inserts the design document and then
queries. -/
theorem conflictView_missing_spec_witness :
    conflictsRun wViewDB false = ([], Except.error (Err.generic "missing conflicts view"))
    ∧ (conflictsRun wViewDB true).1
        = [StoreEvent.insertDesign ("_design/" ++ conflictsDesignID)
             [("all", { map := conflictsMap, reduce := "_count" })],
           StoreEvent.queryView conflictsDesignID conflictsViewID false] := by
  have h := conflictView_missing_spec wViewDB rfl
  exact ⟨h.1.1, (h.2 rfl).1⟩

/-- C7 (code bug): Sync.IsActive is supposed to poll both member
replications and report a distinct inconsistency error when their liveness
disagrees; the code polls replA2B twice (line 101 of the replication file
reads sync.replA2B where sync.replB2A is meant), so on a sync whose A-to-B
leg is active while its B-to-A leg was cancelled out of band it returns
plain true with no error instead of the promised error. -/
theorem syncIsActive_bug :
    replIsActive wSync.replA2B = Except.ok true
    ∧ replIsActive wSync.replB2A = Except.ok false
    ∧ syncIsActive wSync = Except.ok true :=
  ⟨rfl, rfl, rfl⟩

/-- C8 (code bug): Replication.IsActive must return true iff some task has
type replication and a replication_id extending the session id; the code's
Task.IsReplication instead compares the value under the key "replication"
with the empty string, which in Go is true for any task lacking that key.
So the empty task of the repo's own TestTask is classified as a
replication, and a server listing only an indexer task still makes
IsActive report true. -/
theorem taskIsReplication_bug :
    Task.isReplication ([] : Task) = true
    ∧ Task.isReplication [("type", Val.str "indexer")] = true
    ∧ dget [("type", Val.str "indexer"), ("replication_id", Val.str "abc+create_target")]
        "type" = some (Val.str "indexer")
    ∧ replIsActive wReplIndexer = Except.ok true :=
  ⟨rfl, rfl, rfl, rfl⟩

/-- C9: when the first replication of SyncWith starts successfully and the
second start fails, the first replication's cancellation is requested
before the call returns, the rollback cancellation's own outcome is not
surfaced (the result is the same whatever that outcome is), and the
returned value is no sync and exactly the second start's error. -/
theorem syncWith_rollback_spec (env : SyncEnv) (r1 : Replication) (e : Err)
    (h1 : env.startA2B = Except.ok r1) (h2 : env.startB2A = Except.error e) :
    syncWith env = { cancelled := [r1], result := Except.error e }
    ∧ ∀ cr, syncWith { env with cancelResult := cr }
        = { cancelled := [r1], result := Except.error e } := by
  constructor
  · simp [syncWith, h1, h2]
  · intro cr
    simp [syncWith, h1, h2]

/-- Witness for C9 at a concrete environment whose second start and whose
rollback cancellation both fail: the first leg is cancelled and the second
start's error is returned unchanged. -/
theorem syncWith_rollback_spec_witness :
    syncWith wSyncEnv
      = { cancelled := [wReplA2B],
          result := Except.error (Err.couch "db_not_found" "could not open b") } :=
  (syncWith_rollback_spec wSyncEnv wReplA2B (Err.couch "db_not_found" "could not open b")
    rfl rfl).1

end Couch
